import Mathlib

/-!
# Verification of the varuna coordination core

A shallow embedding of the varuna RSS-monitoring pipeline:

* the analysis agent (`src/agents/analysisAgent.ts`): keyword classification,
  per-provider summaries, risk scoring, overall summary;
* the RSS collector agent (`src/agents/rssCollector.ts`): per-source retry
  loop and result publication;
* the in-memory message queue (`src/utils/messageQueue.ts`): per-channel
  backlog, publish append, polling drain;
* the orchestrator (`src/agents/orchestrator.ts`): scheduling state machine
  and result forwarding.

Texts (feed item titles, descriptions, keywords) are modelled as `List Char`
so that JavaScript `String.prototype.includes` becomes list-infix testing and
`split(' ')` becomes an explicit recursion.  Timestamps are epoch
milliseconds (`Nat`).  JavaScript numbers that can only hold non-negative
integers in the program are `Nat`; `Math.round` applied to the quotient of
two such numbers is modelled by `mathRoundDiv`, and the `NaN` arising from
`0 / 0` is modelled by `Option.none`.
-/

namespace Varuna

/-- Model of `text.includes(keyword)` of JavaScript: `kw` occurs as a contiguous
substring of `text`. -/
def containsKw (text kw : List Char) : Bool :=
  decide (kw <:+: text)

/-- Lowercasing of a text, character by character (`String.prototype.toLowerCase`). -/
def lowerText (s : List Char) : List Char :=
  s.map Char.toLower

/-- Model of `RSSItem` from `src/types/index.ts`.  `pubDate` is epoch milliseconds. -/
structure RSSItem where
  title : List Char
  description : List Char
  link : String
  pubDate : Nat
  guid : String
  categories : List String

/-- The three status levels of `src/types/index.ts`. -/
inductive StatusLevel
  | critical
  | warning
  | informational
deriving DecidableEq

/-- The `extractedInfo` record inside `AnalyzedItem`. -/
structure ExtractedInfo where
  hasServiceNames : Bool
  wordCount : Nat
  matchedKeywords : List (List Char)
deriving DecidableEq

/-- Model of `AnalyzedItem` from `src/types/index.ts`. -/
structure AnalyzedItem where
  id : String
  title : List Char
  statusLevel : StatusLevel
  services : List (List Char)
  timestamp : Nat
  link : String
  extractedInfo : ExtractedInfo
deriving DecidableEq

/-- Model of `this.statusKeywords.critical` of the analysis agent. -/
def criticalKeywords : List (List Char) :=
  ["outage".data, "down".data, "unavailable".data, "failed".data, "critical".data]

/-- Model of `this.statusKeywords.warning` of the analysis agent. -/
def warningKeywords : List (List Char) :=
  ["investigating".data, "degraded".data, "issues".data, "problems".data, "delayed".data]

/-- Model of `this.statusKeywords.informational` of the analysis agent. -/
def informationalKeywords : List (List Char) :=
  ["resolved".data, "completed".data, "update".data, "maintenance".data, "scheduled".data]

/-- The keyword set for a status level (`this.statusKeywords[statusLevel]`). -/
def keywordsFor : StatusLevel → List (List Char)
  | StatusLevel.critical => criticalKeywords
  | StatusLevel.warning => warningKeywords
  | StatusLevel.informational => informationalKeywords

/-- Model of `determineStatusLevel` of the analysis agent: iterate over the keyword
categories in insertion order (critical, warning, informational) and return
the first level one of whose keywords occurs in the text; default
`informational`. -/
def determineStatusLevel (text : List Char) : StatusLevel :=
  if criticalKeywords.any (fun kw => containsKw text kw) then StatusLevel.critical
  else if warningKeywords.any (fun kw => containsKw text kw) then StatusLevel.warning
  else if informationalKeywords.any (fun kw => containsKw text kw) then StatusLevel.informational
  else StatusLevel.informational

/-- The fixed service-name list of `extractServices`. -/
def commonServices : List (List Char) :=
  ["ec2".data, "rds".data, "s3".data, "lambda".data, "cloudfront".data,
   "route53".data, "elb".data, "compute engine".data, "cloud storage".data,
   "kubernetes".data, "app engine".data, "cloud sql".data, "cloud cdn".data,
   "cloud dns".data]

/-- Model of `extractServices` of the analysis agent. -/
def extractServices (text : List Char) : List (List Char) :=
  commonServices.filter (fun service => containsKw text service)

/-- Model of `getMatchedKeywords` of the analysis agent. -/
def getMatchedKeywords (text : List Char) (statusLevel : StatusLevel) : List (List Char) :=
  (keywordsFor statusLevel).filter (fun kw => containsKw text kw)

/-- The combined text of `analyzeItem`:
`` `${item.title || ''} ${item.description || ''}`.toLowerCase() ``. -/
def itemText (item : RSSItem) : List Char :=
  lowerText (item.title ++ ' ' :: item.description)

/-- JavaScript `text.split(' ')`: split on every single space character.
`splitOnSpace [] = [[]]` just as `''.split(' ') = ['']`. -/
def splitOnSpace : List Char → List (List Char)
  | [] => [[]]
  | c :: cs =>
      if c = ' ' then [] :: splitOnSpace cs
      else (c :: (splitOnSpace cs).headD []) :: (splitOnSpace cs).tail

/-- Model of `analyzeItem` of the analysis agent.  `timestamp` is `new Date(item.pubDate)`
(a `Date` object is always truthy, so the `|| Date.now()` fallback never fires
for a well-typed `RSSItem`). -/
def analyzeItem (item : RSSItem) : AnalyzedItem :=
  let text := itemText item
  let statusLevel := determineStatusLevel text
  let services := extractServices text
  { id := item.guid
    title := item.title
    statusLevel := statusLevel
    services := services
    timestamp := item.pubDate
    link := item.link
    extractedInfo :=
      { hasServiceNames := !services.isEmpty
        wordCount := (splitOnSpace text).length
        matchedKeywords := getMatchedKeywords text statusLevel } }

/-- Model of `calculateRiskScore` of the analysis agent:
`Math.min(critical*50 + warning*20 + informational*5, 100)`. -/
def calculateRiskScore (critical warning informational : Nat) : Nat :=
  min (critical * 50 + warning * 20 + informational * 5) 100

/-- Model of `AnalysisSummary` from `src/types/index.ts`.  `lastUpdate = none`
models `null`. -/
structure AnalysisSummary where
  provider : String
  totalItems : Nat
  criticalCount : Nat
  warningCount : Nat
  informationalCount : Nat
  uniqueServices : List (List Char)
  riskScore : Nat
  lastUpdate : Option Nat
deriving DecidableEq

/-- JavaScript `Set` insertion: append only if not already present. -/
def insertUniq (acc : List (List Char)) (x : List Char) : List (List Char) :=
  if x ∈ acc then acc else acc ++ [x]

/-- First-occurrence union of the service lists of a batch of analyzed items
(the `Set` built by `generateSummary`'s `forEach`). -/
def uniqueServicesOf (items : List AnalyzedItem) : List (List Char) :=
  items.foldl (fun acc item => item.services.foldl insertUniq acc) []

/-- Model of `generateSummary` of the analysis agent. -/
def generateSummary (provider : String) (analyzedItems : List AnalyzedItem) : AnalysisSummary :=
  let criticalCount := analyzedItems.countP (fun i => i.statusLevel = StatusLevel.critical)
  let warningCount := analyzedItems.countP (fun i => i.statusLevel = StatusLevel.warning)
  let informationalCount := analyzedItems.countP (fun i => i.statusLevel = StatusLevel.informational)
  { provider := provider
    totalItems := analyzedItems.length
    criticalCount := criticalCount
    warningCount := warningCount
    informationalCount := informationalCount
    uniqueServices := uniqueServicesOf analyzedItems
    riskScore := calculateRiskScore criticalCount warningCount informationalCount
    lastUpdate := analyzedItems.head?.map (fun i => i.timestamp) }

/-- The per-provider result statuses of `AnalysisResult` in `src/types/index.ts`. -/
inductive AnalysisStatus
  | success
  | error
  | analysis_error
deriving DecidableEq

/-- Model of `AnalysisResult` from `src/types/index.ts`.  Optional fields are `Option`s. -/
structure AnalysisResult where
  provider : String
  status : AnalysisStatus
  summary : Option AnalysisSummary
  items : Option (List AnalyzedItem)
  error : Option String
deriving DecidableEq

/-- JavaScript `Math.round (a / n)` for natural `a` and `n`, with `n > 0`:
`Math.round` on a non-negative finite quotient rounds half towards plus
infinity, so it equals `⌊a / n + 1 / 2⌋ = (2 * a + n) / (2 * n)` in natural
division. -/
def mathRoundDiv (a n : Nat) : Nat :=
  (2 * a + n) / (2 * n)

/-- The summaries of the batch entries with `status === 'success'` and a
present summary (the guard `result.status === 'success' && result.summary`
of `generateOverallSummary`'s `forEach`). -/
def successSummaries (results : List AnalysisResult) : List AnalysisSummary :=
  results.filterMap (fun r => if r.status = AnalysisStatus.success then r.summary else none)

/-- Model of `OverallSummary` from `src/types/index.ts`.  `overallRiskScore = none`
models the `NaN` produced by `Math.round(0 / 0)` on an empty batch. -/
structure OverallSummary where
  totalProviders : Nat
  totalCritical : Nat
  totalWarning : Nat
  totalInformational : Nat
  allServices : List (List Char)
  overallRiskScore : Option Nat
deriving DecidableEq

/-- Model of `generateOverallSummary` of the analysis agent: sums the counts and risk
scores of the success entries, but divides the risk-score sum by
`totals.totalProviders`, the length of the FULL batch. -/
def generateOverallSummary (analysisResults : List AnalysisResult) : OverallSummary :=
  let succ := successSummaries analysisResults
  { totalProviders := analysisResults.length
    totalCritical := (succ.map (fun s => s.criticalCount)).sum
    totalWarning := (succ.map (fun s => s.warningCount)).sum
    totalInformational := (succ.map (fun s => s.informationalCount)).sum
    allServices := succ.foldl (fun acc s => s.uniqueServices.foldl insertUniq acc) []
    overallRiskScore :=
      if analysisResults.length = 0 then none
      else some (mathRoundDiv ((succ.map (fun s => s.riskScore)).sum) analysisResults.length) }

/-- The overall risk score exactly as claim C1 words it: the sum of the risk
scores of the `success` providers divided by the COUNT OF `success`
PROVIDERS, rounded; undefined (`none`) when that count is zero. -/
def claimOverallRiskScore (results : List AnalysisResult) : Option Nat :=
  let nSucc := (results.filter (fun r => r.status == AnalysisStatus.success)).length
  if nSucc = 0 then none
  else some (mathRoundDiv (((successSummaries results).map (fun s => s.riskScore)).sum) nSucc)

/-- The timestamp of the most recent item, as claim C9 words it. -/
def mostRecentTimestamp (items : List AnalyzedItem) : Option Nat :=
  (items.map (fun i => i.timestamp)).max?

/-! ## The RSS collector (`src/agents/rssCollector.ts`) -/

/-- Model of `RSSSource` from `src/types/index.ts`: the per-source record `collectFeeds`
pushes onto `results` (success with items, or terminal failure with an error
string). -/
structure RSSSourceRec where
  provider : String
  url : String
  items : Option (List RSSItem)
  error : Option String
  itemCount : Nat

/-- One configured source together with its fetch environment: `fetch n` is
the outcome of the n-th `fetchFeed`/`parseFeed` attempt (1-based) — either the
parsed items or the thrown error's message. -/
structure SourceSpec where
  provider : String
  url : String
  fetch : Nat → Except String (List RSSItem)

/-- The part of `config.scheduling` the collector reads. -/
structure SchedulingConfig where
  maxRetries : Nat
  retryDelayMs : Nat

/-- Observable side effects of the collector's retry loop: the
`fetching_feed` log of attempt `n`, and the `setTimeout(retryDelayMs)` wait
between retries. -/
inductive CollectEvent
  | fetchAttempt (provider : String) (n : Nat)
  | wait (ms : Nat)
deriving DecidableEq

/-- The body of `collectFeeds`'s `while (attempts < maxRetries && !success)`
loop for one source.  `fuel = maxRetries - attempts` makes the loop guard
structural: `fuel = 0` is `attempts >= maxRetries`, where the loop exits
without having pushed any outcome.  On a caught error the code pushes a
terminal failure iff the incremented `attempts >= maxRetries`, otherwise it
waits `retryDelayMs` and retries. -/
def collectSourceGo (retryDelayMs maxRetries : Nat) (s : SourceSpec) :
    Nat → Nat → List CollectEvent × List RSSSourceRec
  | 0, _ => ([], [])
  | fuel + 1, attempts =>
      let n := attempts + 1
      match s.fetch n with
      | Except.ok parsedItems =>
          ([CollectEvent.fetchAttempt s.provider n],
           [{ provider := s.provider, url := s.url, items := some parsedItems,
              error := none, itemCount := parsedItems.length }])
      | Except.error msg =>
          if maxRetries ≤ n then
            ([CollectEvent.fetchAttempt s.provider n],
             [{ provider := s.provider, url := s.url, items := none,
                error := some ("Failed after " ++ toString n ++ " attempts: " ++ msg),
                itemCount := 0 }])
          else
            let rest := collectSourceGo retryDelayMs maxRetries s fuel n
            (CollectEvent.fetchAttempt s.provider n :: CollectEvent.wait retryDelayMs :: rest.1,
             rest.2)

/-- The whole retry loop for one source, started at `attempts = 0`. -/
def collectSource (cfg : SchedulingConfig) (s : SourceSpec) :
    List CollectEvent × List RSSSourceRec :=
  collectSourceGo cfg.retryDelayMs cfg.maxRetries s cfg.maxRetries 0

/-- Payloads of the `'result'` messages published on `orchestrator_results`. -/
inductive ResultPayload
  | rssCollected (data : List RSSSourceRec) (totalItems : Nat)
  | analysisComplete (data : List AnalysisResult) (summary : OverallSummary)

/-- A message published on the `orchestrator_results` channel. -/
structure ResultMessage where
  type : String
  fromAgent : String
  payload : ResultPayload
  correlationId : String

/-- Model of `collectFeeds`: run the retry loop for every source in order, then publish
exactly one `rss_data_collected` result whose `totalItems` is
`results.reduce((sum, r) => sum + (r.itemCount || 0), 0)`.  The returned list
is the list of messages published on `orchestrator_results`. -/
def collectFeeds (cfg : SchedulingConfig) (sources : List SourceSpec)
    (correlationId : String) : List CollectEvent × List ResultMessage :=
  let per := sources.map (collectSource cfg)
  let results := (per.map Prod.snd).flatten
  ((per.map Prod.fst).flatten,
   [{ type := "result", fromAgent := "rss-collector",
      payload := ResultPayload.rssCollected results
        ((results.map (fun r => r.itemCount)).sum),
      correlationId := correlationId }])

/-! ## The analysis agent's batch entry point -/

/-- JavaScript truthiness of `source.error` (`undefined` and `''` are falsy). -/
def errTruthy : Option String → Bool
  | none => false
  | some s => !(s == "")

/-- The per-source body of `analyzeRSSData`'s loop: an error-carrying source
yields a `status: 'error'` entry; otherwise every item of
`source.items || []` is classified and summarised.  Classification is a pure
total function here, so the `catch`/`analysis_error` branch of the `try` is
unreachable in the embedding. -/
def analyzeSource (source : RSSSourceRec) : AnalysisResult :=
  if errTruthy source.error then
    { provider := source.provider, status := AnalysisStatus.error,
      summary := none, items := none, error := source.error }
  else
    let analyzedItems := (source.items.getD []).map analyzeItem
    { provider := source.provider, status := AnalysisStatus.success,
      summary := some (generateSummary source.provider analyzedItems),
      items := some analyzedItems, error := none }

/-- Model of `analyzeRSSData`: analyze every source of the batch, then publish exactly
one `analysis_complete` result on `orchestrator_results`, carrying the same
`correlationId` the task carried. -/
def analyzeRSSData (rssData : List RSSSourceRec) (correlationId : String) : ResultMessage :=
  let analysisResults := rssData.map analyzeSource
  { type := "result", fromAgent := "analysis-agent",
    payload := ResultPayload.analysisComplete analysisResults
      (generateOverallSummary analysisResults),
    correlationId := correlationId }

/-! ## The orchestrator (`src/agents/orchestrator.ts`) -/

/-- Messages the orchestrator's result handler publishes in response to a
consumed result: the forwarded `analyze_rss_data` task on `analysis_tasks`. -/
inductive OrchPub
  | analysisTask (data : List RSSSourceRec) (correlationId : String)

/-- The orchestrator state touched by `handleAgentResult`: `cycleCount`. -/
structure OrchState where
  cycleCount : Nat

/-- Model of `handleAgentResult`: an `rss_data_collected` result is republished as an
`analyze_rss_data` task with the SAME `correlationId`; an `analysis_complete`
result increments `cycleCount` and publishes nothing. -/
def handleAgentResult (st : OrchState) (message : ResultMessage) :
    OrchState × List OrchPub :=
  match message.payload with
  | ResultPayload.rssCollected data _ =>
      (st, [OrchPub.analysisTask data message.correlationId])
  | ResultPayload.analysisComplete _ _ =>
      ({ cycleCount := st.cycleCount + 1 }, [])

/-- The observable actions of `startScheduling` / `stopScheduling` /
`processResults`. -/
inductive SchedAction
  | registerTimer (intervalMs : Nat)
  | dispatch
  | subscribeResults
  | clearTimer (taskName : String)
deriving DecidableEq

/-- The scheduling state of the orchestrator: the `isRunning` flag and the
keys of the `scheduledTasks` map. -/
structure SchedState where
  isRunning : Bool
  timers : List String
deriving DecidableEq

/-- Model of `startScheduling`: if `isRunning`, return at once (no action); otherwise
set the flag, register the interval timer under the key `rss_collection`, and
run one collection dispatch immediately.  It does NOT subscribe to the result
channel — `processResults` does. -/
def startScheduling (intervalMs : Nat) (st : SchedState) : SchedState × List SchedAction :=
  if st.isRunning then (st, [])
  else ({ isRunning := true, timers := st.timers ++ ["rss_collection"] },
        [SchedAction.registerTimer intervalMs, SchedAction.dispatch])

/-- Model of `stopScheduling`: clear the flag, clear every scheduled timer. -/
def stopScheduling (st : SchedState) : SchedState × List SchedAction :=
  ({ isRunning := false, timers := [] }, st.timers.map SchedAction.clearTimer)

/-- Model of `processResults`: subscribe to the result channel (called separately from
`startScheduling`, at system initialization). -/
def processResults (st : SchedState) : SchedState × List SchedAction :=
  (st, [SchedAction.subscribeResults])

/-! ## The in-memory message queue (`src/utils/messageQueue.ts`) -/

/-- The state of the in-memory backend: the per-channel backlog
(`this.memoryQueue`), plus a log of deliveries per channel — each delivery
records which registered handler the drained message was handed to, in
order. -/
structure QueueState (μ : Type) where
  backlog : String → List μ
  delivered : String → List (Nat × μ)

/-- Queue history events: `publish channel m` appends `m` to the channel's
backlog; `drain channel h` is one firing of the polling interval registered
by `subscribe` for handler `h` on that channel — it shifts every queued
message off the backlog in order and invokes the handler on each. -/
inductive QueueEvent (μ : Type)
  | publish (channel : String) (m : μ)
  | drain (channel : String) (handler : Nat)

/-- One step of the queue semantics.  `publish` is
`this.memoryQueue.get(channel).push(messageData)`; `drain` is the
`while (messages.length > 0) callback(messages.shift())` loop of the
in-memory `subscribe`. -/
def qStep (st : QueueState μ) : QueueEvent μ → QueueState μ
  | QueueEvent.publish ch m =>
      { st with backlog := fun c => if c = ch then st.backlog c ++ [m] else st.backlog c }
  | QueueEvent.drain ch h =>
      { backlog := fun c => if c = ch then [] else st.backlog c
        delivered := fun c =>
          if c = ch then st.delivered c ++ (st.backlog c).map (fun m => (h, m))
          else st.delivered c }

/-- The empty queue. -/
def qInit (μ : Type) : QueueState μ :=
  { backlog := fun _ => [], delivered := fun _ => [] }

/-- Run a history of queue events from the empty queue. -/
def qRun (events : List (QueueEvent μ)) : QueueState μ :=
  events.foldl qStep (qInit μ)

/-- The messages published on a channel over a history, in publish order. -/
def publishedSeq (ch : String) : List (QueueEvent μ) → List μ
  | [] => []
  | QueueEvent.publish c m :: rest =>
      if c = ch then m :: publishedSeq ch rest else publishedSeq ch rest
  | QueueEvent.drain _ _ :: rest => publishedSeq ch rest

/-! ## Claim-side definitions and concrete demonstration values -/

/-- The classifier exactly as claim C2 words it: critical keywords present ⇒
critical; else warning keywords present ⇒ warning; else informational. -/
def specStatusLevel (text : List Char) : StatusLevel :=
  if ∃ kw ∈ criticalKeywords, kw <:+: text then StatusLevel.critical
  else if ∃ kw ∈ warningKeywords, kw <:+: text then StatusLevel.warning
  else StatusLevel.informational

/-- A per-source outcome record is a Success (items present, `itemCount`
equal to their number, no error) or a Failure (no items, zero `itemCount`,
an error string). -/
def outcomeWF (o : RSSSourceRec) : Prop :=
  (∃ its, o.items = some its ∧ o.itemCount = its.length ∧ o.error = none) ∨
  (o.items = none ∧ o.itemCount = 0 ∧ ∃ e, o.error = some e)

/-- A success `AnalysisResult` carrying the given risk score, used as a
concrete test vector. -/
def demoSuccess (p : String) (score : Nat) : AnalysisResult :=
  { provider := p, status := AnalysisStatus.success,
    summary := some
      { provider := p, totalItems := 1, criticalCount := 1, warningCount := 0,
        informationalCount := 0, uniqueServices := [], riskScore := score,
        lastUpdate := none },
    items := some [], error := none }

/-- An error `AnalysisResult` (a fully failed provider), used as a concrete
test vector. -/
def demoErrorResult : AnalysisResult :=
  { provider := "gcp", status := AnalysisStatus.error, summary := none,
    items := none, error := some "Failed after 3 attempts: Request timeout" }

/-- An RSS item with the given publication timestamp, used as a concrete test
vector. -/
def demoItem (t : Nat) (g : String) : RSSItem :=
  { title := "a".data, description := "b".data, link := "", pubDate := t,
    guid := g, categories := [] }

/-- An RSS item whose title and description are both empty. -/
def demoEmptyItem : RSSItem :=
  { title := [], description := [], link := "", pubDate := 0, guid := "",
    categories := [] }

/-- The development scheduling configuration relevant to the collector:
`maxRetries = 3`, `retryDelayMs = 2000`. -/
def demoCfg : SchedulingConfig :=
  { maxRetries := 3, retryDelayMs := 2000 }

/-- A source whose fetch succeeds at once with an empty feed, used as a
concrete test vector. -/
def demoSource : SourceSpec :=
  { provider := "aws", url := "https://status.aws.amazon.com/rss/all.rss",
    fetch := fun _ => Except.ok [] }

/-! ## Helper lemmas -/

theorem splitOnSpace_ne_nil (l : List Char) : splitOnSpace l ≠ [] := by
  cases l with
  | nil => simp [splitOnSpace]
  | cons c cs =>
      unfold splitOnSpace
      by_cases hc : c = ' ' <;> simp [hc]

theorem length_splitOnSpace (l : List Char) : (splitOnSpace l).length = 1 + l.count ' ' := by
  induction l with
  | nil => simp [splitOnSpace]
  | cons c cs ih =>
      by_cases hc : c = ' '
      · subst hc
        have hstep : splitOnSpace (' ' :: cs) = [] :: splitOnSpace cs := by
          simp [splitOnSpace]
        rw [hstep, List.length_cons, List.count_cons_self, ih]
        omega
      · have hne := splitOnSpace_ne_nil cs
        have hcount : (c :: cs).count ' ' = cs.count ' ' := by
          simp [List.count_cons, hc]
        rw [hcount]
        unfold splitOnSpace
        rw [if_neg hc, List.length_cons]
        cases h : splitOnSpace cs with
        | nil => exact absurd h hne
        | cons a as =>
            rw [h] at ih
            simp only [List.tail_cons]
            simp only [List.length_cons] at ih
            omega

theorem count_space_itemText (item : RSSItem) :
    (itemText item).count ' ' =
      (lowerText item.title).count ' ' + (lowerText item.description).count ' ' + 1 := by
  unfold itemText lowerText
  rw [List.map_append, List.map_cons]
  have h : Char.toLower ' ' = ' ' := by decide
  rw [h, List.count_append, List.count_cons_self]
  omega

/-! ## Claims -/

/-- C2: for every item the classified `statusLevel` is a deterministic
function of the lowercase concatenation of title and description: if a
critical keyword occurs as a substring the level is critical, otherwise a
warning keyword gives warning, otherwise informational; the priority order
critical > warning > informational is fixed and the first matching set
wins.  Stated as: the keyword loop of `determineStatusLevel` computes
exactly the prioritised cascade `specStatusLevel`, and `analyzeItem`
applies it to the lowercased combined text. -/
theorem statusLevel_matches_priority_spec :
    (∀ text, determineStatusLevel text = specStatusLevel text) ∧
    (∀ item : RSSItem,
      (analyzeItem item).statusLevel =
        specStatusLevel (lowerText (item.title ++ ' ' :: item.description))) := by
  have key : ∀ text, determineStatusLevel text = specStatusLevel text := by
    intro text
    unfold determineStatusLevel specStatusLevel containsKw
    simp only [List.any_eq_true, decide_eq_true_eq]
    split_ifs <;> rfl
  exact ⟨key, fun item => key (itemText item)⟩

/-- C3: the per-provider risk score is `min(100, critical*50 + warning*20 +
informational*5)`; it is monotonic non-decreasing in every count, never
exceeds 100, and `calculateRiskScore 3 0 0 = 100`. -/
theorem calculateRiskScore_spec :
    (∀ c w i, calculateRiskScore c w i = min 100 (c * 50 + w * 20 + i * 5)) ∧
    (∀ c cBig w wBig i iBig, c ≤ cBig → w ≤ wBig → i ≤ iBig →
      calculateRiskScore c w i ≤ calculateRiskScore cBig wBig iBig) ∧
    (∀ c w i, calculateRiskScore c w i ≤ 100) ∧
    calculateRiskScore 3 0 0 = 100 := by
  refine ⟨?_, ?_, ?_, by decide⟩
  · intro c w i
    unfold calculateRiskScore
    exact min_comm _ _
  · intro c cBig w wBig i iBig hc hw hi
    unfold calculateRiskScore
    exact min_le_min (by omega) le_rfl
  · intro c w i
    exact min_le_right _ _

/-- Witness for `calculateRiskScore_spec` at concrete counts. -/
theorem calculateRiskScore_spec_witness :
    calculateRiskScore 1 1 1 ≤ calculateRiskScore 2 1 1 ∧
    calculateRiskScore 1 1 1 ≤ 100 :=
  ⟨calculateRiskScore_spec.2.1 1 2 1 1 1 1 (by decide) (by decide) (by decide),
   calculateRiskScore_spec.2.2.1 1 1 1⟩

/-- C10: the reported `extractedInfo.wordCount` equals 1 plus the number of
space characters in the lowercased combined string `title ++ ' ' ++
description`, because `split(' ')` splits on single spaces only; hence it is
always at least 2, and an item with empty title and empty description
reports word count 2. -/
theorem wordCount_one_plus_spaces :
    (∀ item : RSSItem,
      (analyzeItem item).extractedInfo.wordCount =
        1 + (lowerText (item.title ++ ' ' :: item.description)).count ' ') ∧
    (∀ item : RSSItem, 2 ≤ (analyzeItem item).extractedInfo.wordCount) ∧
    (analyzeItem demoEmptyItem).extractedInfo.wordCount = 2 := by
  have key : ∀ item : RSSItem,
      (analyzeItem item).extractedInfo.wordCount = 1 + (itemText item).count ' ' := by
    intro item
    show (splitOnSpace (itemText item)).length = _
    exact length_splitOnSpace _
  refine ⟨key, ?_, by decide⟩
  intro item
  have h1 := key item
  have h2 := count_space_itemText item
  omega

/-- Validation of the `Math.round` model: for `n > 0`,
`mathRoundDiv a n` is `⌊a / n + 1 / 2⌋` over the rationals. -/
theorem mathRoundDiv_eq_floor (a n : Nat) (h : 0 < n) :
    (mathRoundDiv a n : ℤ) = ⌊(a : ℚ) / (n : ℚ) + 1 / 2⌋ := by
  have hn : ((n : ℚ)) ≠ 0 := by positivity
  have key : (a : ℚ) / (n : ℚ) + 1 / 2 = ((2 * a + n : ℕ) : ℚ) / ((2 * n : ℕ) : ℚ) := by
    push_cast
    field_simp
    ring
  have low : (2 * a + n) / (2 * n) * (2 * n) ≤ 2 * a + n := Nat.div_mul_le_self _ _
  have high : 2 * a + n < ((2 * a + n) / (2 * n) + 1) * (2 * n) := by
    have hdm := Nat.div_add_mod (2 * a + n) (2 * n)
    have hmod : (2 * a + n) % (2 * n) < 2 * n := Nat.mod_lt _ (by omega)
    rw [Nat.mul_comm (2 * n)] at hdm
    rw [Nat.succ_mul ((2 * a + n) / (2 * n)) (2 * n)]
    omega
  rw [eq_comm, Int.floor_eq_iff, key]
  unfold mathRoundDiv
  constructor
  · rw [Int.cast_natCast, le_div_iff₀ (by positivity)]
    exact_mod_cast low
  · rw [Int.cast_natCast, div_lt_iff₀ (by positivity)]
    exact_mod_cast high

/-- Counterexample to C1 as stated: for the batch
`[success with risk 50, error]` the claim's average (divide by the count of
success providers) is 50, but `generateOverallSummary` divides by the FULL
provider count and yields 25. -/
theorem overallRiskScore_claim_counterexample :
    claimOverallRiskScore [demoSuccess "aws" 50, demoErrorResult] = some 50 ∧
    (generateOverallSummary [demoSuccess "aws" 50, demoErrorResult]).overallRiskScore = some 25 ∧
    (generateOverallSummary [demoSuccess "aws" 50, demoErrorResult]).overallRiskScore ≠
      claimOverallRiskScore [demoSuccess "aws" 50, demoErrorResult] := by
  refine ⟨by decide, by decide, by decide⟩

/-- C1 (amended): the Overall Summary's `overallRiskScore` is the sum of the
risk scores of the `status == success` providers divided by the TOTAL number
of providers in the batch (regardless of status), rounded; it is undefined
(`NaN`, modelled `none`) exactly when the batch is empty.  The claim's
formula (divide by the success count) agrees whenever every provider in the
batch is a success, so a batch of exactly two success providers with risk
scores 50 and 20 yields 35. -/
theorem overallRiskScore_divides_by_total_providers :
    (∀ results : List AnalysisResult,
      (generateOverallSummary results).overallRiskScore =
        if results.length = 0 then none
        else some (mathRoundDiv (((successSummaries results).map (fun s => s.riskScore)).sum)
              results.length)) ∧
    ((generateOverallSummary [demoSuccess "aws" 50, demoSuccess "gcp" 20]).overallRiskScore
      = some 35) ∧
    (∀ results : List AnalysisResult,
      (∀ r ∈ results, r.status = AnalysisStatus.success) →
      claimOverallRiskScore results = (generateOverallSummary results).overallRiskScore) := by
  refine ⟨fun results => rfl, by decide, ?_⟩
  intro results hall
  have hf : results.filter (fun r => r.status == AnalysisStatus.success) = results :=
    List.filter_eq_self.mpr (fun a ha => by simp [hall a ha])
  unfold claimOverallRiskScore generateOverallSummary
  simp only [hf]

/-- Witness for `overallRiskScore_divides_by_total_providers` on an
all-success batch. -/
theorem overallRiskScore_divides_by_total_providers_witness :
    claimOverallRiskScore [demoSuccess "aws" 50, demoSuccess "gcp" 20] =
      (generateOverallSummary [demoSuccess "aws" 50, demoSuccess "gcp" 20]).overallRiskScore :=
  overallRiskScore_divides_by_total_providers.2.2
    [demoSuccess "aws" 50, demoSuccess "gcp" 20] (by decide)

/-- Counterexample to C9 as stated: for a source whose classified items are
listed oldest first, `generateSummary` reports the FIRST item's timestamp
(100), not the most recent one (200). -/
theorem lastUpdate_claim_counterexample :
    (generateSummary "aws" ([demoItem 100 "1", demoItem 200 "2"].map analyzeItem)).lastUpdate
      = some 100 ∧
    mostRecentTimestamp ([demoItem 100 "1", demoItem 200 "2"].map analyzeItem) = some 200 ∧
    (generateSummary "aws" ([demoItem 100 "1", demoItem 200 "2"].map analyzeItem)).lastUpdate ≠
      mostRecentTimestamp ([demoItem 100 "1", demoItem 200 "2"].map analyzeItem) := by
  refine ⟨by decide, by decide, by decide⟩

/-- C9 (amended): if the provider has at least one classified item,
`lastUpdate` equals the timestamp of the FIRST item in the list (which is the
most recent item only when the feed is ordered newest first); if the provider
has zero items, the summary has `totalItems = 0`, empty `uniqueServices`,
`lastUpdate = null` and `riskScore = 0`. -/
theorem summary_lastUpdate_first_item :
    (∀ provider items first rest, items = first :: rest →
      (generateSummary provider items).lastUpdate = some first.timestamp) ∧
    (∀ provider,
      (generateSummary provider []).totalItems = 0 ∧
      (generateSummary provider []).uniqueServices = [] ∧
      (generateSummary provider []).lastUpdate = none ∧
      (generateSummary provider []).riskScore = 0) := by
  constructor
  · intro provider items first rest hitems
    subst hitems
    rfl
  · intro provider
    exact ⟨rfl, rfl, rfl, rfl⟩

/-- Witness for `summary_lastUpdate_first_item` at a concrete singleton
batch. -/
theorem summary_lastUpdate_first_item_witness :
    (generateSummary "aws" [analyzeItem (demoItem 100 "1")]).lastUpdate = some 100 := by
  have h := summary_lastUpdate_first_item.1 "aws" [analyzeItem (demoItem 100 "1")]
    (analyzeItem (demoItem 100 "1")) [] rfl
  rw [h]
  rfl

theorem stringData_append (s t : String) : (s ++ t).data = s.data ++ t.data := by
  cases s
  cases t
  rfl

theorem collectSourceGo_single (retryDelayMs maxRetries : Nat) (s : SourceSpec) :
    ∀ fuel attempts, attempts + fuel = maxRetries → 1 ≤ fuel →
      ∃ o, (collectSourceGo retryDelayMs maxRetries s fuel attempts).2 = [o] ∧
        o.provider = s.provider ∧ o.url = s.url ∧ outcomeWF o := by
  intro fuel
  induction fuel with
  | zero => intro attempts hsum hfuel; omega
  | succ fuel ih =>
      intro attempts hsum hfuel
      cases hf : s.fetch (attempts + 1) with
      | ok parsedItems =>
          refine ⟨{ provider := s.provider, url := s.url, items := some parsedItems,
                    error := none, itemCount := parsedItems.length }, ?_, rfl, rfl,
                  Or.inl ⟨parsedItems, rfl, rfl, rfl⟩⟩
          simp [collectSourceGo, hf]
      | error msg =>
          by_cases hle : maxRetries ≤ attempts + 1
          · refine ⟨{ provider := s.provider, url := s.url, items := none,
                      error := some ("Failed after " ++ toString (attempts + 1) ++
                        " attempts: " ++ msg), itemCount := 0 }, ?_, rfl, rfl,
                    Or.inr ⟨rfl, rfl, _, rfl⟩⟩
            simp [collectSourceGo, hf, hle]
          · obtain ⟨o, ho, hp, hu, hw⟩ := ih (attempts + 1) (by omega) (by omega)
            refine ⟨o, ?_, hp, hu, hw⟩
            simp [collectSourceGo, hf, hle, ho]

theorem collectSource_single (cfg : SchedulingConfig) (s : SourceSpec)
    (h : 1 ≤ cfg.maxRetries) :
    ∃ o, (collectSource cfg s).2 = [o] ∧ o.provider = s.provider ∧ o.url = s.url ∧
      outcomeWF o :=
  collectSourceGo_single cfg.retryDelayMs cfg.maxRetries s cfg.maxRetries 0 (by omega) h

theorem collect_batch_spec (cfg : SchedulingConfig) (h : 1 ≤ cfg.maxRetries) :
    ∀ sources : List SourceSpec,
      (((sources.map (collectSource cfg)).map Prod.snd).flatten).length = sources.length ∧
      (((sources.map (collectSource cfg)).map Prod.snd).flatten).map (fun o => o.provider) =
        sources.map (fun s => s.provider) ∧
      ∀ o ∈ ((sources.map (collectSource cfg)).map Prod.snd).flatten, outcomeWF o := by
  intro sources
  induction sources with
  | nil => simp
  | cons s ss ih =>
      obtain ⟨o, ho, hp, hu, hw⟩ := collectSource_single cfg s h
      obtain ⟨ih1, ih2, ih3⟩ := ih
      have hcons : (List.map Prod.snd (List.map (collectSource cfg) (s :: ss))).flatten
          = o :: (List.map Prod.snd (List.map (collectSource cfg) ss)).flatten := by
        rw [List.map_cons, List.map_cons, List.flatten_cons, ho]
        rfl
      refine ⟨?_, ?_, ?_⟩
      · rw [hcons, List.length_cons, ih1, List.length_cons]
      · rw [hcons, List.map_cons, hp, ih2, List.map_cons]
      · intro x hx
        rw [hcons] at hx
        rcases List.mem_cons.mp hx with hx | hx
        · exact hx ▸ hw
        · exact ih3 x hx

/-- C4: `collectFeeds` always terminates by publishing exactly one result
message (errors are caught per source, never escaping the loop), and that
message's payload carries one Collection Outcome per source — each a Success
(items present, `itemCount = items.length`) or a Failure (`itemCount = 0`,
no items, an error string) — together with `totalItems` equal to the sum of
`itemCount` over all outcomes.  Requires the configured `maxRetries` to be
at least 1 (all shipped configurations use 3 or 5); with `maxRetries = 0`
the retry loop would record no outcome at all. -/
theorem collector_publishes_one_result (cfg : SchedulingConfig) (sources : List SourceSpec)
    (cid : String) (h : 1 ≤ cfg.maxRetries) :
    ∃ m outs,
      (collectFeeds cfg sources cid).2 = [m] ∧
      m.correlationId = cid ∧
      m.payload = ResultPayload.rssCollected outs ((outs.map (fun o => o.itemCount)).sum) ∧
      outs.length = sources.length ∧
      outs.map (fun o => o.provider) = sources.map (fun s => s.provider) ∧
      ∀ o ∈ outs, outcomeWF o := by
  obtain ⟨h1, h2, h3⟩ := collect_batch_spec cfg h sources
  exact ⟨_, _, rfl, rfl, rfl, h1, h2, h3⟩

/-- Witness for `collector_publishes_one_result`: the development
configuration (3 retries) on one immediately succeeding source. -/
theorem collector_publishes_one_result_witness :
    ∃ m outs,
      (collectFeeds demoCfg [demoSource] "cid-1").2 = [m] ∧
      m.correlationId = "cid-1" ∧
      m.payload = ResultPayload.rssCollected outs ((outs.map (fun o => o.itemCount)).sum) ∧
      outs.length = 1 ∧
      outs.map (fun o => o.provider) = ["aws"] ∧
      ∀ o ∈ outs, outcomeWF o := by
  have h := collector_publishes_one_result demoCfg [demoSource] "cid-1" (by decide)
  simpa [demoSource] using h

/-- C5: for a source whose every fetch attempt fails, with `maxRetries = 3`,
the collector makes exactly 3 fetch attempts, waits `retryDelayMs` between
consecutive attempts, then records a terminal Failure outcome (no items,
`itemCount = 0`) whose error string contains the attempt count `"3"` and the
underlying cause, and stops retrying the source. -/
theorem retry_exhaustion (d : Nat) (p u : String) (msgs : Nat → String) :
    collectSource { maxRetries := 3, retryDelayMs := d }
        { provider := p, url := u, fetch := fun n => Except.error (msgs n) } =
      ([CollectEvent.fetchAttempt p 1, CollectEvent.wait d,
        CollectEvent.fetchAttempt p 2, CollectEvent.wait d,
        CollectEvent.fetchAttempt p 3],
       [{ provider := p, url := u, items := none,
          error := some ("Failed after 3 attempts: " ++ msgs 3), itemCount := 0 }]) ∧
    "3".data <:+: ("Failed after 3 attempts: " ++ msgs 3).data ∧
    (msgs 3).data <:+: ("Failed after 3 attempts: " ++ msgs 3).data := by
  refine ⟨rfl, ?_, ?_⟩
  · have hd := stringData_append "Failed after 3 attempts: " (msgs 3)
    have h1 : "3".data <:+: "Failed after 3 attempts: ".data := by decide
    have h2 : "Failed after 3 attempts: ".data <+:
        ("Failed after 3 attempts: " ++ msgs 3).data := by
      rw [hd]
      exact List.prefix_append _ _
    exact h1.trans h2.isInfix
  · have hd := stringData_append "Failed after 3 attempts: " (msgs 3)
    exact List.IsSuffix.isInfix ⟨"Failed after 3 attempts: ".data, hd.symm⟩

/-- C6: every message a stage publishes in response to a consumed message
carries the consumed message's `correlationId`: the collector's result
carries the collect task's id, the orchestrator forwards that id on the
`analyze_rss_data` task, and the analyzer's `analysis_complete` result
carries it again — end to end, a collect task with id `cid` yields an
`analysis_complete` result with id `cid`. -/
theorem correlation_id_end_to_end (cfg : SchedulingConfig) (sources : List SourceSpec)
    (cid : String) (st : OrchState) :
    ∃ cmsg data,
      (collectFeeds cfg sources cid).2 = [cmsg] ∧
      cmsg.correlationId = cid ∧
      (handleAgentResult st cmsg).2 = [OrchPub.analysisTask data cid] ∧
      (analyzeRSSData data cid).correlationId = cid ∧
      ∃ rs os, (analyzeRSSData data cid).payload = ResultPayload.analysisComplete rs os := by
  exact ⟨_, _, rfl, rfl, rfl, rfl, _, _, rfl⟩

theorem qRunFrom_invariant {μ : Type} (ch : String) :
    ∀ (events : List (QueueEvent μ)) (st : QueueState μ),
      ((events.foldl qStep st).delivered ch).map Prod.snd ++ (events.foldl qStep st).backlog ch =
        ((st.delivered ch).map Prod.snd ++ st.backlog ch) ++ publishedSeq ch events := by
  intro events
  induction events with
  | nil => intro st; simp [publishedSeq]
  | cons e rest ih =>
      intro st
      rw [List.foldl_cons, ih (qStep st e)]
      cases e with
      | publish c m =>
          by_cases hc : c = ch
          · subst hc
            simp [qStep, publishedSeq, List.append_assoc]
          · simp [qStep, publishedSeq, hc, Ne.symm hc]
      | drain c hId =>
          by_cases hc : c = ch
          · subst hc
            simp [qStep, publishedSeq, List.map_append, List.map_map, Function.comp]
          · simp [qStep, publishedSeq, hc, Ne.symm hc]

/-- C7: in the in-memory backend, per channel, the sequence of messages
handed to handlers is exactly a prefix of the publish sequence of that
channel, and the remaining backlog is the rest: delivery is FIFO in publish
order, every drained message is removed and never re-delivered, and each
message reaches exactly one handler exactly once (the delivery log records
the single handler each message was handed to) — an SPMC queue, not a
broadcast bus. -/
theorem memory_queue_fifo_single_delivery {μ : Type} (events : List (QueueEvent μ))
    (ch : String) :
    ((qRun events).delivered ch).map Prod.snd ++ (qRun events).backlog ch =
      publishedSeq ch events ∧
    ((qRun events).delivered ch).map Prod.snd <+: publishedSeq ch events := by
  have h := qRunFrom_invariant ch events (qInit μ)
  have h2 : (((qInit μ).delivered ch).map Prod.snd ++ (qInit μ).backlog ch) = ([] : List μ) :=
    rfl
  rw [h2, List.nil_append] at h
  exact ⟨h, ⟨(qRun events).backlog ch, h⟩⟩

/-- Counterexample to C8 as stated: from a non-scheduling state,
`startScheduling` registers the timer and performs the immediate dispatch but
does NOT subscribe to the result channel — that subscription is performed by
the separate `processResults` operation. -/
theorem startScheduling_no_subscribe_counterexample :
    (startScheduling 900000 { isRunning := false, timers := [] }).2 =
      [SchedAction.registerTimer 900000, SchedAction.dispatch] ∧
    SchedAction.subscribeResults ∉
      (startScheduling 900000 { isRunning := false, timers := [] }).2 := by
  refine ⟨by decide, by decide⟩

/-- C8 (amended): `startScheduling` is idempotent — when already scheduling
it is a no-op; otherwise it registers a timer with the configured period and
immediately performs one collection-dispatch step without waiting for the
first timer tick.  It does not subscribe to the result channel; the separate
`processResults` operation does that, once, at system initialization.  After
`stopScheduling`, a subsequent `startScheduling` resumes dispatching and
performs the immediate first dispatch exactly once (no double-dispatch, no
skipped dispatch). -/
theorem startScheduling_spec (intervalMs : Nat) (st : SchedState) :
    (st.isRunning = true → startScheduling intervalMs st = (st, [])) ∧
    (st.isRunning = false →
      (startScheduling intervalMs st).2 =
        [SchedAction.registerTimer intervalMs, SchedAction.dispatch] ∧
      (startScheduling intervalMs st).1.isRunning = true ∧
      (startScheduling intervalMs st).2.count SchedAction.dispatch = 1) ∧
    ((startScheduling intervalMs
        (stopScheduling (startScheduling intervalMs st).1).1).2.count
          SchedAction.dispatch = 1) ∧
    (processResults st).2 = [SchedAction.subscribeResults] := by
  refine ⟨?_, ?_, ?_, rfl⟩
  · intro hrun
    simp [startScheduling, hrun]
  · intro hrun
    refine ⟨?_, ?_, ?_⟩ <;> simp [startScheduling, hrun, List.count_cons]
  · simp [startScheduling, stopScheduling, List.count_cons]

/-- Witness for `startScheduling_spec`: a running state is left untouched,
and a stopped state yields exactly the timer registration plus one
dispatch. -/
theorem startScheduling_spec_witness :
    startScheduling 5 { isRunning := true, timers := ["rss_collection"] } =
      ({ isRunning := true, timers := ["rss_collection"] }, []) ∧
    (startScheduling 5 { isRunning := false, timers := [] }).2 =
      [SchedAction.registerTimer 5, SchedAction.dispatch] :=
  ⟨(startScheduling_spec 5 { isRunning := true, timers := ["rss_collection"] }).1 rfl,
   ((startScheduling_spec 5 { isRunning := false, timers := [] }).2.1 rfl).1⟩

end Varuna
